import Mathlib

/-!
Verification of the MediScanAI lab-type validation and risk-correction pipeline.

The definitions below are a shallow embedding of the TypeScript sources:

* `src/server/services/labValidationService.ts` — `LAB_VALIDATION_RULES`,
  `MEDICAL_DOCUMENT_INDICATORS`, `validateLabType`, `validateParsedValues`;
* `src/server/services/ocrService.ts` — `calculateCorrectedRiskAssessment`
  together with the data shapes of `ComprehensiveAnalysis`;
* the Express route `POST /api/lab-results/upload` — the declared-lab-type
  gate and the confidence-tier bucketing.

Strings are modelled as `List Char`; JavaScript `String.prototype.includes`
becomes an explicit substring search; `toLowerCase` becomes `Char.toLower`
mapped over the list.  Floating-point confidence arithmetic is rendered in
`ℚ` (every comparison the program performs is exact at the values reached:
0.2 + 0.3 = 0.5, 0.5 + 0.3 = 0.8 and 0.8 + 0.2 = 1.0 hold exactly in binary64
as well).  The regular-expression test over `commonPatterns` is abstracted
as a boolean oracle argument, since no claim depends on the regex engine.
-/

namespace MediScan

/-- JS `hay.includes(pat)`: `pat` occurs as a contiguous substring of `hay`. -/
def includesStr (hay pat : List Char) : Bool :=
  match hay with
  | [] => pat.isEmpty
  | _ :: t => List.isPrefixOf pat hay || includesStr t pat

/-- JS `s.toLowerCase()` (ASCII casing, which covers every constant below). -/
def lowerStr (s : List Char) : List Char :=
  s.map Char.toLower

/-- JS `s.trim()`: strip leading and trailing whitespace. -/
def jsTrim (s : List Char) : List Char :=
  ((s.dropWhile Char.isWhitespace).reverse.dropWhile Char.isWhitespace).reverse

/-- The closed `LabType` enumeration of `labValidationService.ts`. -/
inductive LabType
  | cbc
  | urinalysis
  | lipid
deriving DecidableEq

/-- Per-lab-type rule set (`LabValidationRules`); the `commonPatterns`
regexes are not carried — the pattern test enters as an oracle. -/
structure LabValidationRules where
  requiredKeywords : List (List Char)
  expectedParameters : List (List Char)
  minimumParameterMatches : Nat

/-- `LAB_VALIDATION_RULES` from `labValidationService.ts`, verbatim. -/
def LAB_VALIDATION_RULES : LabType → LabValidationRules
  | .cbc =>
    { requiredKeywords := List.map String.toList
        ["complete blood count", "cbc", "blood count", "hematology",
         "hemoglobin", "haemoglobin", "hgb", "platelet"]
      expectedParameters := List.map String.toList
        ["wbc", "white blood cell", "white blood count", "leucocyte", "leukocyte",
         "rbc", "red blood cell", "red blood count", "erythrocyte",
         "hemoglobin", "haemoglobin", "hgb", "hb",
         "hematocrit", "haematocrit", "hct", "packed cell volume", "pcv",
         "platelet", "plt", "thrombocyte",
         "mcv", "mean corpuscular volume",
         "mch", "mean corpuscular hemoglobin",
         "mchc", "mean corpuscular hemoglobin concentration",
         "neutrophil", "lymphocyte", "monocyte", "eosinophil", "basophil",
         "neutro", "lympho", "mono", "eosino", "baso"]
      minimumParameterMatches := 4 }
  | .urinalysis =>
    { requiredKeywords := List.map String.toList
        ["urinalysis", "urine analysis", "urine test", "urine exam",
         "microscopy", "microscopic examination", "physical examination",
         "chemical examination"]
      expectedParameters := List.map String.toList
        ["color", "colour", "appearance", "clarity", "turbidity",
         "specific gravity", "sp gr", "sg", "ph",
         "protein", "albumin", "glucose", "sugar",
         "ketone", "acetone", "blood", "hemoglobin", "haemoglobin",
         "bilirubin", "urobilinogen", "nitrite", "nitrate",
         "leukocyte esterase", "leukocyte", "leucocyte",
         "rbc", "red blood cell", "wbc", "white blood cell",
         "epithelial cell", "squamous", "transitional",
         "bacteria", "yeast", "cast", "crystal", "mucus"]
      minimumParameterMatches := 5 }
  | .lipid =>
    { requiredKeywords := List.map String.toList
        ["lipid profile", "lipid panel", "lipid test",
         "cholesterol", "triglyceride", "hdl", "ldl"]
      expectedParameters := List.map String.toList
        ["total cholesterol", "cholesterol total", "cholesterol",
         "hdl", "hdl cholesterol", "high density lipoprotein",
         "ldl", "ldl cholesterol", "low density lipoprotein",
         "triglyceride", "tg",
         "vldl", "very low density lipoprotein",
         "non-hdl", "non hdl cholesterol",
         "tc/hdl ratio", "chol/hdl ratio", "cholesterol/hdl",
         "ldl/hdl ratio", "risk ratio"]
      minimumParameterMatches := 3 }

/-- `MEDICAL_DOCUMENT_INDICATORS` from `labValidationService.ts`. -/
def MEDICAL_DOCUMENT_INDICATORS : List (List Char) :=
  List.map String.toList
    ["laboratory", "lab report", "medical", "hospital", "clinic",
     "patient", "specimen", "reference range", "normal range",
     "result", "test", "analysis", "examination"]

/-- The distinct human-readable reason strings produced by the two
classifiers, abstracted to their identity and the counts they interpolate. -/
inductive Reason
  | notMedicalReport
  | missingKeywords (labType : LabType) (found : Nat) (minParams : Nat)
  | insufficientParameters (labType : LabType) (found : Nat) (needed : Nat)
  | formatNotDetected
  | validReport (labType : LabType)
  | parsedMismatch (labType : LabType)
  | parsedMatchOk (labType : LabType)
deriving DecidableEq

/-- `ValidationResult` from `labValidationService.ts`. -/
structure ValidationResult where
  isValid : Bool
  confidence : ℚ
  reasons : List Reason
  matchedKeywords : List (List Char)
  matchedParameters : List (List Char)
deriving DecidableEq

/-- The `matchedKeywords` accumulation loop of `validateLabType`:
required keywords whose lowercasing occurs in the normalized text. -/
def matchedKeywordsOf (rules : LabValidationRules) (normalizedText : List Char) :
    List (List Char) :=
  rules.requiredKeywords.filter (fun keyword => includesStr normalizedText (lowerStr keyword))

/-- The `matchedParameters` accumulation loop of `validateLabType`. -/
def matchedParametersOf (rules : LabValidationRules) (normalizedText : List Char) :
    List (List Char) :=
  rules.expectedParameters.filter (fun param => includesStr normalizedText (lowerStr param))

/-- The `MEDICAL_DOCUMENT_INDICATORS.some(...)` check of `validateLabType`. -/
def hasMedicalIndicatorsOf (normalizedText : List Char) : Bool :=
  MEDICAL_DOCUMENT_INDICATORS.any (fun indicator => includesStr normalizedText (lowerStr indicator))

/-- `validateLabType` from `labValidationService.ts`.  `patternsMatch` is the
oracle for `rules.commonPatterns.filter(p => p.test(ocrText)).length > 0`. -/
def validateLabType (ocrText : List Char) (labType : LabType) (patternsMatch : Bool) :
    ValidationResult :=
  let normalizedText := lowerStr ocrText
  let rules := LAB_VALIDATION_RULES labType
  let hasMedicalIndicators := hasMedicalIndicatorsOf normalizedText
  let matchedKeywords := matchedKeywordsOf rules normalizedText
  let requiredKeywordsFound := matchedKeywords.length
  let matchedParameters := matchedParametersOf rules normalizedText
  let hasEnoughParameters : Bool := decide (rules.minimumParameterMatches ≤ matchedParameters.length)
  let hasRequiredKeywords : Bool :=
    decide (2 ≤ requiredKeywordsFound) || (labType == .urinalysis && hasEnoughParameters)
  let reasons : List Reason :=
    (if hasMedicalIndicators then [] else [Reason.notMedicalReport]) ++
    (if hasRequiredKeywords then [] else
      [Reason.missingKeywords labType requiredKeywordsFound rules.minimumParameterMatches]) ++
    (if hasEnoughParameters then [] else
      [Reason.insufficientParameters labType matchedParameters.length rules.minimumParameterMatches]) ++
    (if patternsMatch then [] else [Reason.formatNotDetected])
  let baseConfidence : ℚ :=
    (if hasMedicalIndicators then 2/10 else 0) +
    (if hasRequiredKeywords then 3/10 else 0) +
    (if hasEnoughParameters then 3/10 else 0) +
    (if patternsMatch then 2/10 else 0)
  let confidence : ℚ :=
    if labType == .urinalysis &&
       decide (rules.minimumParameterMatches + 2 ≤ matchedParameters.length) then
      min 1 (baseConfidence + 1/10)
    else baseConfidence
  let isValid := hasMedicalIndicators && hasRequiredKeywords && hasEnoughParameters
  { isValid := isValid
    confidence := confidence
    reasons := reasons ++ (if isValid then [Reason.validReport labType] else [])
    matchedKeywords := matchedKeywords
    matchedParameters := matchedParameters }

/-- `validateParsedValues` from `labValidationService.ts`.  The source only
reads `Object.keys(parsedValues)`, so the embedding takes the key list. -/
def validateParsedValues (parsedValueKeys : List (List Char)) (labType : LabType) :
    ValidationResult :=
  let rules := LAB_VALIDATION_RULES labType
  let parsedKeys := parsedValueKeys.map lowerStr
  let matchedParameters := rules.expectedParameters.filter (fun expectedParam =>
    let paramWords := List.splitOn ' ' (lowerStr expectedParam)
    parsedKeys.any (fun key =>
      paramWords.all (fun word => includesStr key word) ||
      includesStr key (lowerStr expectedParam)))
  let hasEnoughMatches : Bool := decide (rules.minimumParameterMatches ≤ matchedParameters.length)
  { isValid := hasEnoughMatches
    confidence := min ((matchedParameters.length : ℚ) / (rules.minimumParameterMatches : ℚ)) 1
    reasons := if hasEnoughMatches then [Reason.parsedMatchOk labType] else [Reason.parsedMismatch labType]
    matchedKeywords := []
    matchedParameters := matchedParameters }

/-- Status of one lab-value breakdown row (`ComprehensiveAnalysis`). -/
inductive LabStatus
  | normal
  | borderline
  | abnormal
deriving DecidableEq

/-- One `labValueBreakdown` row of `ComprehensiveAnalysis`. -/
structure BreakdownEntry where
  parameter : List Char
  value : List Char
  normalRange : List Char
  status : LabStatus
  interpretation : List Char
deriving DecidableEq

/-- Specialist-referral urgency (`ComprehensiveAnalysis.suggestedSpecialists`). -/
inductive Urgency
  | routine
  | soon
  | urgent
deriving DecidableEq

/-- One suggested specialist referral (field `type` renamed: Lean keyword). -/
structure SpecialistReferral where
  specialistType : List Char
  reason : List Char
  urgency : Urgency
deriving DecidableEq

/-- The risk-level enumeration, ordered low < moderate < high. -/
inductive RiskLevel
  | low
  | moderate
  | high
deriving DecidableEq

/-- A risk level / risk score pair (`riskLevel`, `riskScore`). -/
structure RiskAssessment where
  riskLevel : RiskLevel
  riskScore : ℤ
deriving DecidableEq

/-- The body of `calculateCorrectedRiskAssessment` after its counting
prelude: the decision ladder over `abnormalCount`, `borderlineCount`,
`totalParameters`, `urgentSpecialists`, `soonSpecialists`.  The percentage
`(abnormalCount / totalParameters) * 100` is computed in `ℚ` (exact where
the float is, at every comparison the ladder makes). -/
def correctedFromCounts (abnormalCount borderlineCount totalParameters
    urgentSpecialists soonSpecialists : Nat) (mlRiskData : RiskAssessment) :
    RiskAssessment :=
  let abnormalPercentage : ℚ :=
    if 0 < totalParameters then
      ((abnormalCount : ℚ) / (totalParameters : ℚ)) * 100
    else 0
  let r : RiskAssessment :=
    if 0 < urgentSpecialists ∨ 3 ≤ abnormalCount then
      ⟨.high, max 70 (70 + (abnormalCount : ℤ) * 5 + (urgentSpecialists : ℤ) * 10)⟩
    else if 0 < soonSpecialists ∨ 2 ≤ abnormalCount ∨ 50 ≤ abnormalPercentage then
      ⟨.moderate, max 45 (45 + (abnormalCount : ℤ) * 5 + (soonSpecialists : ℤ) * 5)⟩
    else if 1 ≤ abnormalCount ∨ 2 ≤ borderlineCount then
      ⟨.moderate, max 40 (40 + (abnormalCount : ℤ) * 3 + (borderlineCount : ℤ) * 2)⟩
    else if 1 ≤ borderlineCount then
      ⟨.low, max 25 (25 + (borderlineCount : ℤ) * 2)⟩
    else mlRiskData
  ⟨r.riskLevel, min 100 r.riskScore⟩

/-- `calculateCorrectedRiskAssessment` from `ocrService.ts`: count the
abnormal / borderline breakdown rows and the urgent / soon referrals, then
run the override ladder, then cap the score at 100. -/
def calculateCorrectedRiskAssessment (labValueBreakdown : List BreakdownEntry)
    (suggestedSpecialists : List SpecialistReferral) (mlRiskData : RiskAssessment) :
    RiskAssessment :=
  correctedFromCounts
    (labValueBreakdown.filter (fun lab => lab.status == .abnormal)).length
    (labValueBreakdown.filter (fun lab => lab.status == .borderline)).length
    labValueBreakdown.length
    (suggestedSpecialists.filter (fun spec => spec.urgency == .urgent)).length
    (suggestedSpecialists.filter (fun spec => spec.urgency == .soon)).length
    mlRiskData

/-- Outcome of the declared-lab-type gate of `POST /api/lab-results/upload`:
either HTTP 400 before any classifier runs, or the pipeline proceeds with a
member of the closed enumeration. -/
inductive UploadDecision
  | badRequest
  | proceed (labType : LabType)
deriving DecidableEq

/-- The route's `labType.toLowerCase().trim()` normalization followed by the
`ALLOWED_LAB_TYPES.includes(...)` membership test; on failure the handler
returns HTTP 400 and by construction never reaches either classifier. -/
def uploadLabTypeDecision (labType : List Char) : UploadDecision :=
  let normalizedLabType := jsTrim (lowerStr labType)
  if normalizedLabType = "cbc".toList then .proceed .cbc
  else if normalizedLabType = "urinalysis".toList then .proceed .urinalysis
  else if normalizedLabType = "lipid".toList then .proceed .lipid
  else .badRequest

/-- The coarse confidence buckets of the route's 422 payloads. -/
inductive ConfidenceTier
  | high
  | medium
  | low
deriving DecidableEq

/-- `confidence >= 0.8 ? 'high' : confidence >= 0.5 ? 'medium' : 'low'`. -/
def confidenceTier (confidence : ℚ) : ConfidenceTier :=
  if 8/10 ≤ confidence then .high
  else if 5/10 ≤ confidence then .medium
  else .low

/-! ### Concrete sample data used by counterexamples and witnesses -/

/-- Scenario C row: wbc 12, marked borderline. -/
def wbcBorderlineEntry : BreakdownEntry :=
  ⟨"wbc".toList, "12".toList, "4.5-11.0 K/uL".toList, .borderline,
   "slightly elevated".toList⟩

/-- Scenario C row: hemoglobin 9, marked abnormal. -/
def hgbAbnormalEntry : BreakdownEntry :=
  ⟨"hemoglobin".toList, "9".toList, "12.0-17.5 g/dL".toList, .abnormal,
   "below normal range".toList⟩

/-- Scenario C row: platelets 90, marked abnormal. -/
def pltAbnormalEntry : BreakdownEntry :=
  ⟨"platelets".toList, "90".toList, "150-400 K/uL".toList, .abnormal,
   "below normal range".toList⟩

/-- A breakdown row with status normal. -/
def normalEntry : BreakdownEntry :=
  ⟨"rbc".toList, "4.7".toList, "4.2-5.9 M/uL".toList, .normal,
   "within normal range".toList⟩

/-- The scenario C breakdown: 1 borderline, 2 abnormal, 3 rows total. -/
def scenarioC_breakdown : List BreakdownEntry :=
  [wbcBorderlineEntry, hgbAbnormalEntry, pltAbnormalEntry]

/-! ### Helper lemmas about the decision ladder -/

/-- The ladder's percentage test `50 ≤ (abnormalCount / totalParameters) * 100`
(0 when the breakdown is empty), reduced to integer arithmetic. -/
lemma pct_cond_iff (a T : ℕ) :
    (50 ≤ (if 0 < T then ((a : ℚ) / (T : ℚ)) * 100 else 0)) ↔ (0 < T ∧ T ≤ 2 * a) := by
  rcases Nat.eq_zero_or_pos T with hT | hT
  · subst hT; simp
  · have hT0 : (0 : ℚ) < (T : ℚ) := by exact_mod_cast hT
    rw [if_pos hT, div_mul_eq_mul_div, le_div_iff₀ hT0]
    constructor
    · intro h
      refine ⟨hT, ?_⟩
      have h4 : 50 * T ≤ a * 100 := by exact_mod_cast h
      omega
    · rintro ⟨_, h⟩
      have h4 : (50 : ℚ) * T ≤ (a : ℚ) * 100 := by
        exact_mod_cast Nat.mul_le_mul_left 50 h |>.trans (by omega : 50 * (2 * a) ≤ a * 100)
      linarith

/-- Two mutually exclusive filters never keep more rows than the list has. -/
lemma filter_pair_length_le {α : Type} (p q : α → Bool) (l : List α)
    (h : ∀ x ∈ l, ¬(p x = true ∧ q x = true)) :
    (l.filter p).length + (l.filter q).length ≤ l.length := by
  induction l with
  | nil => simp
  | cons x xs ih =>
    have hx := h x (by simp)
    have hxs : ∀ y ∈ xs, ¬(p y = true ∧ q y = true) := fun y hy => h y (by simp [hy])
    have hrec := ih hxs
    by_cases hp : p x = true
    · by_cases hq : q x = true
      · exact (hx ⟨hp, hq⟩).elim
      · simp [List.filter_cons, hp, hq]; omega
    · by_cases hq : q x = true <;> simp [List.filter_cons, hp, hq] <;> omega

/-- One ladder step in `abnormalCount` (the added row also grows the total):
the corrected score never drops, given the side conditions of the amended
monotonicity claim. -/
lemma correctedFromCounts_step (a b T u s : ℕ) (raw : RiskAssessment)
    (hb : b ≤ 6) (hs : s ≤ 6) (hr : raw.riskScore ≤ 43) (habT : a + b ≤ T) :
    (correctedFromCounts a b T u s raw).riskScore ≤
      (correctedFromCounts (a + 1) b (T + 1) u s raw).riskScore := by
  unfold correctedFromCounts
  simp only [pct_cond_iff]
  split_ifs <;> simp <;> omega

/-- Adding `k` abnormal rows never lowers the corrected score, given the side
conditions of the amended monotonicity claim. -/
lemma correctedFromCounts_mono (a b T u s k : ℕ) (raw : RiskAssessment)
    (hb : b ≤ 6) (hs : s ≤ 6) (hr : raw.riskScore ≤ 43) (habT : a + b ≤ T) :
    (correctedFromCounts a b T u s raw).riskScore ≤
      (correctedFromCounts (a + k) b (T + k) u s raw).riskScore := by
  induction k with
  | zero => simp
  | succ n ih =>
    refine le_trans ih ?_
    have h := correctedFromCounts_step (a + n) b (T + n) u s raw hb hs hr (by omega)
    have e1 : a + n + 1 = a + (n + 1) := by omega
    have e2 : T + n + 1 = T + (n + 1) := by omega
    rw [e1, e2] at h
    exact h

/-- The corrected score is within `[0, 100]` whenever the raw score is. -/
lemma correctedFromCounts_range (a b T u s : ℕ) (raw : RiskAssessment)
    (h0 : 0 ≤ raw.riskScore) (h100 : raw.riskScore ≤ 100) :
    0 ≤ (correctedFromCounts a b T u s raw).riskScore ∧
      (correctedFromCounts a b T u s raw).riskScore ≤ 100 := by
  unfold correctedFromCounts
  simp only [pct_cond_iff]
  split_ifs <;> simp <;> omega

/-- With no abnormal or borderline rows and no urgent or soon referrals, the
ladder falls through and only the final cap touches the raw prediction. -/
lemma correctedFromCounts_no_findings (T : ℕ) (raw : RiskAssessment)
    (h100 : raw.riskScore ≤ 100) :
    correctedFromCounts 0 0 T 0 0 raw = raw := by
  unfold correctedFromCounts
  simp only [pct_cond_iff]
  have h1 : ¬(0 < 0 ∨ 3 ≤ 0) := by omega
  have h2 : ¬(0 < 0 ∨ 2 ≤ 0 ∨ (0 < T ∧ T ≤ 2 * 0)) := by omega
  have h3 : ¬(1 ≤ 0 ∨ 2 ≤ 0) := by omega
  have h4 : ¬(1 ≤ (0 : ℕ)) := by omega
  rw [if_neg h1, if_neg h2, if_neg h3, if_neg h4]
  have : min (100 : ℤ) raw.riskScore = raw.riskScore := min_eq_right h100
  calc (⟨raw.riskLevel, min 100 raw.riskScore⟩ : RiskAssessment)
      = ⟨raw.riskLevel, raw.riskScore⟩ := by rw [this]
    _ = raw := rfl

/-- As long as one ladder rule fires (some abnormal/borderline row or some
urgent/soon referral), the result does not depend on the raw prediction. -/
lemma correctedFromCounts_raw_independent (a b T u s : ℕ) (raw1 raw2 : RiskAssessment)
    (h : 0 < a + b + u + s) :
    correctedFromCounts a b T u s raw1 = correctedFromCounts a b T u s raw2 := by
  unfold correctedFromCounts
  simp only [pct_cond_iff]
  split_ifs <;> first | rfl | omega

/-- With exactly one borderline row, no abnormal rows and no urgent/soon
referrals, the ladder's fourth rule fires: level low, score 27. -/
lemma correctedFromCounts_single_borderline (T : ℕ) (raw : RiskAssessment) :
    correctedFromCounts 0 1 T 0 0 raw = ⟨RiskLevel.low, 27⟩ := by
  unfold correctedFromCounts
  simp only [pct_cond_iff]
  split_ifs <;> first
    | (exfalso; omega)
    | norm_num

/-- A member matched by the filter makes the filtered length positive. -/
lemma length_filter_pos_of_mem {α : Type} (p : α → Bool) {l : List α} {x : α}
    (hx : x ∈ l) (hpx : p x = true) : 0 < (l.filter p).length :=
  List.length_pos.mpr (List.ne_nil_of_mem (List.mem_filter.mpr ⟨hx, hpx⟩))

/-! ### Claim C1 — end-to-end scenario C through the risk ladder -/

/-- C1, counterexample: on the scenario C inputs (1 borderline + 2 abnormal
rows, no referrals, raw prediction low/20) the code does NOT return score 48:
`abnormalCount >= 2` fires the 45-branch first. -/
theorem C1_counterexample :
    (calculateCorrectedRiskAssessment scenarioC_breakdown [] ⟨.low, 20⟩).riskScore ≠ 48 := by
  decide

/-- C1, amended: on the scenario C inputs the corrected assessment is level
moderate with score `max 45 (45 + 2*5 + 0*5) = 55`, because the
`abnormalCount >= 2` rule precedes the 40-based rule in the ladder. -/
theorem C1_amended_theorem :
    calculateCorrectedRiskAssessment scenarioC_breakdown [] ⟨.low, 20⟩ =
      ⟨RiskLevel.moderate, 55⟩ := by
  decide

/-! ### Claim C2 — monotonicity of the corrected score in abnormalCount -/

/-- C2, counterexample: with an empty breakdown and raw prediction high/100
the raw score is retained (100), while adding one abnormal row drops the
corrected score to 50 — so increasing `abnormalCount` with everything else
fixed CAN decrease the corrected riskScore. -/
theorem C2_counterexample :
    ¬ ((calculateCorrectedRiskAssessment [] [] ⟨.high, 100⟩).riskScore ≤
        (calculateCorrectedRiskAssessment [hgbAbnormalEntry] [] ⟨.high, 100⟩).riskScore) := by
  have h1 : calculateCorrectedRiskAssessment [] [] ⟨.high, 100⟩ = ⟨.high, 100⟩ := by decide
  have h2 : calculateCorrectedRiskAssessment [hgbAbnormalEntry] [] ⟨.high, 100⟩ =
      correctedFromCounts 1 0 1 0 0 ⟨.high, 100⟩ := rfl
  have h3 : correctedFromCounts 1 0 1 0 0 ⟨.high, 100⟩ = ⟨.moderate, 50⟩ := by
    norm_num [correctedFromCounts]
  rw [h1, h2, h3]
  decide

/-- C2, amended: adding abnormal rows (everything else fixed) never decreases
the corrected riskScore, provided no override ladder ever hands control back
to a larger value from a competing source: borderline rows at most 6, soon
referrals at most 6, and raw riskScore at most 43. -/
theorem C2_amended_theorem (bd extras : List BreakdownEntry)
    (refs : List SpecialistReferral) (raw : RiskAssessment)
    (hex : ∀ e ∈ extras, e.status = LabStatus.abnormal)
    (hb : (bd.filter (fun lab => lab.status == LabStatus.borderline)).length ≤ 6)
    (hs : (refs.filter (fun spec => spec.urgency == Urgency.soon)).length ≤ 6)
    (hr : raw.riskScore ≤ 43) :
    (calculateCorrectedRiskAssessment bd refs raw).riskScore ≤
      (calculateCorrectedRiskAssessment (bd ++ extras) refs raw).riskScore := by
  have habn : extras.filter (fun lab => lab.status == LabStatus.abnormal) = extras := by
    rw [List.filter_eq_self]
    intro e he
    simp [hex e he]
  have hbor : extras.filter (fun lab => lab.status == LabStatus.borderline) = [] := by
    rw [List.filter_eq_nil_iff]
    intro e he
    simp [hex e he]
  have habT : (bd.filter (fun lab => lab.status == LabStatus.abnormal)).length +
      (bd.filter (fun lab => lab.status == LabStatus.borderline)).length ≤ bd.length := by
    apply filter_pair_length_le
    rintro x _ ⟨h1, h2⟩
    simp only [beq_iff_eq] at h1 h2
    rw [h1] at h2
    exact LabStatus.noConfusion h2
  unfold calculateCorrectedRiskAssessment
  rw [List.filter_append, List.filter_append, List.length_append, habn, hbor,
    List.append_nil, List.length_append]
  exact correctedFromCounts_mono _ _ _ _ _ _ raw hb hs hr habT

/-- C2, witness: one borderline row versus borderline + one extra abnormal
row, no referrals, raw low/20 — the amended theorem applies and indeed
27 ≤ 50. -/
theorem C2_witness :
    (∀ e ∈ [hgbAbnormalEntry], e.status = LabStatus.abnormal) ∧
    ([wbcBorderlineEntry].filter (fun lab => lab.status == LabStatus.borderline)).length ≤ 6 ∧
    (([] : List SpecialistReferral).filter (fun spec => spec.urgency == Urgency.soon)).length ≤ 6 ∧
    (RiskAssessment.mk .low 20).riskScore ≤ 43 ∧
    (calculateCorrectedRiskAssessment [wbcBorderlineEntry] [] ⟨.low, 20⟩).riskScore ≤
      (calculateCorrectedRiskAssessment ([wbcBorderlineEntry] ++ [hgbAbnormalEntry]) [] ⟨.low, 20⟩).riskScore :=
  ⟨by decide, by decide, by decide, by decide,
    C2_amended_theorem [wbcBorderlineEntry] [hgbAbnormalEntry] [] ⟨.low, 20⟩
      (by decide) (by decide) (by decide) (by decide)⟩

/-! ### Claim C3 — corrected riskScore stays in [0, 100] -/

/-- C3: for every breakdown, referral list and raw prediction (whose score,
per the data model, is an integer in [0,100]), the corrected riskScore lies
in [0,100]. -/
theorem C3_score_in_range (bd : List BreakdownEntry) (refs : List SpecialistReferral)
    (raw : RiskAssessment) (h0 : 0 ≤ raw.riskScore) (h100 : raw.riskScore ≤ 100) :
    0 ≤ (calculateCorrectedRiskAssessment bd refs raw).riskScore ∧
      (calculateCorrectedRiskAssessment bd refs raw).riskScore ≤ 100 :=
  correctedFromCounts_range _ _ _ _ _ raw h0 h100

/-- C3, witness: scenario C inputs satisfy the range hypotheses and the
corrected score is in [0,100]. -/
theorem C3_witness :
    0 ≤ (RiskAssessment.mk .low 20).riskScore ∧
    (RiskAssessment.mk .low 20).riskScore ≤ 100 ∧
    (0 ≤ (calculateCorrectedRiskAssessment scenarioC_breakdown [] ⟨.low, 20⟩).riskScore ∧
      (calculateCorrectedRiskAssessment scenarioC_breakdown [] ⟨.low, 20⟩).riskScore ≤ 100) :=
  ⟨by decide, by decide,
    C3_score_in_range scenarioC_breakdown [] ⟨.low, 20⟩ (by decide) (by decide)⟩

/-! ### Claim C4 — identity on all-normal breakdown with no referrals -/

/-- C4: if every breakdown row has status normal and there are no referrals,
the corrected assessment equals the raw prediction exactly (whose score, per
the data model, is at most 100 — the final `min 100` cap is then inert). -/
theorem C4_no_findings_identity (bd : List BreakdownEntry)
    (refs : List SpecialistReferral) (raw : RiskAssessment)
    (hnorm : ∀ e ∈ bd, e.status = LabStatus.normal) (hrefs : refs = [])
    (h100 : raw.riskScore ≤ 100) :
    calculateCorrectedRiskAssessment bd refs raw = raw := by
  subst hrefs
  have ha : bd.filter (fun lab => lab.status == LabStatus.abnormal) = [] := by
    rw [List.filter_eq_nil_iff]
    intro e he
    simp [hnorm e he]
  have hb : bd.filter (fun lab => lab.status == LabStatus.borderline) = [] := by
    rw [List.filter_eq_nil_iff]
    intro e he
    simp [hnorm e he]
  unfold calculateCorrectedRiskAssessment
  rw [ha, hb]
  simp only [List.filter_nil, List.length_nil]
  exact correctedFromCounts_no_findings bd.length raw h100

/-- C4, witness: a one-row all-normal breakdown with no referrals returns the
raw prediction high/97 unchanged. -/
theorem C4_witness :
    (∀ e ∈ [normalEntry], e.status = LabStatus.normal) ∧
    (RiskAssessment.mk .high 97).riskScore ≤ 100 ∧
    calculateCorrectedRiskAssessment [normalEntry] [] ⟨.high, 97⟩ = ⟨.high, 97⟩ :=
  ⟨by decide, by decide,
    C4_no_findings_identity [normalEntry] [] ⟨.high, 97⟩ (by decide) rfl (by decide)⟩

/-! ### Claim C9 — corrected output ignores the raw prediction once any
finding or urgent/soon referral exists -/

/-- C9: (1) whenever some breakdown row is not normal, or some referral is
urgent or soon, the corrected assessment is a function of the breakdown and
referrals alone — the raw prediction cannot influence it; (2) in particular,
with exactly one borderline row, no abnormal rows and no urgent/soon
referrals, a raw prediction of level high is lowered to ⟨low, 27⟩
(27 = max 25 (25 + 2·1)). -/
theorem C9_raw_independence :
    (∀ (bd : List BreakdownEntry) (refs : List SpecialistReferral)
        (raw1 raw2 : RiskAssessment),
      ((∃ e ∈ bd, e.status ≠ LabStatus.normal) ∨
       (∃ rf ∈ refs, rf.urgency = Urgency.urgent ∨ rf.urgency = Urgency.soon)) →
      calculateCorrectedRiskAssessment bd refs raw1 =
        calculateCorrectedRiskAssessment bd refs raw2) ∧
    (∀ (bd : List BreakdownEntry) (refs : List SpecialistReferral)
        (raw : RiskAssessment),
      (bd.filter (fun lab => lab.status == LabStatus.borderline)).length = 1 →
      (bd.filter (fun lab => lab.status == LabStatus.abnormal)).length = 0 →
      (refs.filter (fun spec => spec.urgency == Urgency.urgent)).length = 0 →
      (refs.filter (fun spec => spec.urgency == Urgency.soon)).length = 0 →
      raw.riskLevel = RiskLevel.high →
      calculateCorrectedRiskAssessment bd refs raw = ⟨RiskLevel.low, 27⟩) := by
  constructor
  · intro bd refs raw1 raw2 h
    apply correctedFromCounts_raw_independent
    rcases h with ⟨e, he, hst⟩ | ⟨rf, hrf, hu⟩
    · cases hcase : e.status with
      | normal => exact (hst hcase).elim
      | borderline =>
        have := length_filter_pos_of_mem (fun lab => lab.status == LabStatus.borderline)
          he (by simp [hcase])
        omega
      | abnormal =>
        have := length_filter_pos_of_mem (fun lab => lab.status == LabStatus.abnormal)
          he (by simp [hcase])
        omega
    · rcases hu with hu | hu
      · have := length_filter_pos_of_mem (fun spec => spec.urgency == Urgency.urgent)
          hrf (by simp [hu])
        omega
      · have := length_filter_pos_of_mem (fun spec => spec.urgency == Urgency.soon)
          hrf (by simp [hu])
        omega
  · intro bd refs raw h1 h0 hu hsoon _
    unfold calculateCorrectedRiskAssessment
    rw [h1, h0, hu, hsoon]
    exact correctedFromCounts_single_borderline bd.length raw

/-- C9, witness: a single borderline row, no referrals — the corrected
output is identical for raw high/88 and raw low/20, and equals ⟨low, 27⟩. -/
theorem C9_witness :
    ((∃ e ∈ [wbcBorderlineEntry], e.status ≠ LabStatus.normal) ∧
      calculateCorrectedRiskAssessment [wbcBorderlineEntry] [] ⟨.high, 88⟩ =
        calculateCorrectedRiskAssessment [wbcBorderlineEntry] [] ⟨.low, 20⟩) ∧
    calculateCorrectedRiskAssessment [wbcBorderlineEntry] [] ⟨.high, 88⟩ =
      ⟨RiskLevel.low, 27⟩ :=
  ⟨⟨by decide,
    C9_raw_independence.1 [wbcBorderlineEntry] [] ⟨.high, 88⟩ ⟨.low, 20⟩
      (Or.inl ⟨wbcBorderlineEntry, by decide, by decide⟩)⟩,
    C9_raw_independence.2 [wbcBorderlineEntry] [] ⟨.high, 88⟩
      (by decide) (by decide) (by decide) (by decide) (by decide)⟩

/-! ### Sample OCR texts for the classifier witnesses -/

/-- A CBC-looking OCR text: one generic indicator ("laboratory"), four
required CBC keywords, five expected CBC parameters. -/
def cbcSampleText : List Char :=
  "laboratory complete blood count hemoglobin wbc rbc hematocrit platelet".toList

/-- A urinalysis-looking OCR text with NO urinalysis required keyword but a
generic indicator ("patient") and five expected urinalysis parameters. -/
def uaSampleText : List Char :=
  "patient color appearance glucose protein ketone".toList

/-- The urinalysis rule set fixes `minimumParameterMatches = 5`. -/
lemma urinalysis_min :
    (LAB_VALIDATION_RULES LabType.urinalysis).minimumParameterMatches = 5 := rfl

/-! ### Claim C5 — urinalysis keyword leniency in the text classifier -/

/-- C5: for any text matching zero urinalysis required keywords but at least
5 (= `minimumParameterMatches`) expected urinalysis parameters, the
classifier never emits the missing-keywords reason (`hasRequiredKeywords`
is decided true by the leniency branch), and if a generic medical indicator
is present the text is accepted as valid. -/
theorem C5_urinalysis_leniency (text : List Char) (patternsMatch : Bool)
    (hkw : (matchedKeywordsOf (LAB_VALIDATION_RULES .urinalysis) (lowerStr text)).length = 0)
    (hpar : 5 ≤ (matchedParametersOf (LAB_VALIDATION_RULES .urinalysis) (lowerStr text)).length) :
    (∀ lt f m, Reason.missingKeywords lt f m ∉
        (validateLabType text .urinalysis patternsMatch).reasons) ∧
    (hasMedicalIndicatorsOf (lowerStr text) = true →
      (validateLabType text .urinalysis patternsMatch).isValid = true) := by
  have hrk : (decide (2 ≤ (matchedKeywordsOf (LAB_VALIDATION_RULES .urinalysis) (lowerStr text)).length) ||
      (LabType.urinalysis == LabType.urinalysis &&
        decide ((LAB_VALIDATION_RULES LabType.urinalysis).minimumParameterMatches ≤
          (matchedParametersOf (LAB_VALIDATION_RULES .urinalysis) (lowerStr text)).length))) = true := by
    simp [hkw, urinalysis_min, hpar]
  constructor
  · intro lt f m
    simp only [validateLabType, hrk, urinalysis_min, hpar]
    simp [hkw, hpar]
  · intro hmed
    simp only [validateLabType]
    simp [hmed, hkw, urinalysis_min, hpar]

/-- C5, witness: `uaSampleText` has zero required urinalysis keywords, five
matched parameters and a generic indicator, and is accepted. -/
theorem C5_witness :
    (matchedKeywordsOf (LAB_VALIDATION_RULES .urinalysis) (lowerStr uaSampleText)).length = 0 ∧
    5 ≤ (matchedParametersOf (LAB_VALIDATION_RULES .urinalysis) (lowerStr uaSampleText)).length ∧
    hasMedicalIndicatorsOf (lowerStr uaSampleText) = true ∧
    (validateLabType uaSampleText .urinalysis false).isValid = true :=
  ⟨by decide, by decide, by decide,
    (C5_urinalysis_leniency uaSampleText false (by decide) (by decide)).2 (by decide)⟩

/-! ### Claim C6 — the structured-value classifier's matching contract -/

/-- The matching rule exactly as the spec words it: an expected-parameter
phrase matches when some key of the map, lowercased, contains the whole
phrase as a substring, or contains every individual word of the phrase. -/
def specParamMatch (parsedValueKeys : List (List Char)) (expectedParam : List Char) : Bool :=
  parsedValueKeys.any (fun key =>
    includesStr (lowerStr key) (lowerStr expectedParam) ||
    (List.splitOn ' ' (lowerStr expectedParam)).all (fun word => includesStr (lowerStr key) word))

/-- C6: `validateParsedValues` matches phrases exactly per `specParamMatch`;
`isValid` iff the matched count reaches `minimumParameterMatches`;
`confidence = min (matched / minimumParameterMatches) 1`; and
`matchedKeywords` is always empty. -/
theorem C6_parsed_values_spec (keys : List (List Char)) (labType : LabType) :
    (validateParsedValues keys labType).matchedParameters =
      (LAB_VALIDATION_RULES labType).expectedParameters.filter (specParamMatch keys) ∧
    ((validateParsedValues keys labType).isValid = true ↔
      (LAB_VALIDATION_RULES labType).minimumParameterMatches ≤
        ((LAB_VALIDATION_RULES labType).expectedParameters.filter (specParamMatch keys)).length) ∧
    (validateParsedValues keys labType).confidence =
      min ((((LAB_VALIDATION_RULES labType).expectedParameters.filter
          (specParamMatch keys)).length : ℚ) /
        ((LAB_VALIDATION_RULES labType).minimumParameterMatches : ℚ)) 1 ∧
    (validateParsedValues keys labType).matchedKeywords = [] := by
  have hfun : ∀ p : List Char,
      ((keys.map lowerStr).any (fun key =>
        (List.splitOn ' ' (lowerStr p)).all (fun word => includesStr key word) ||
        includesStr key (lowerStr p))) = specParamMatch keys p := by
    intro p
    unfold specParamMatch
    rw [List.any_map]
    have : ((fun key =>
        (List.splitOn ' ' (lowerStr p)).all (fun word => includesStr key word) ||
        includesStr key (lowerStr p)) ∘ lowerStr) = (fun key =>
        includesStr (lowerStr key) (lowerStr p) ||
        (List.splitOn ' ' (lowerStr p)).all (fun word => includesStr (lowerStr key) word)) := by
      funext key
      simp only [Function.comp]
      exact Bool.or_comm _ _
    rw [this]
  have hfilter : (LAB_VALIDATION_RULES labType).expectedParameters.filter
      (fun expectedParam =>
        (keys.map lowerStr).any (fun key =>
          (List.splitOn ' ' (lowerStr expectedParam)).all (fun word => includesStr key word) ||
          includesStr key (lowerStr expectedParam))) =
      (LAB_VALIDATION_RULES labType).expectedParameters.filter (specParamMatch keys) := by
    apply List.filter_congr
    intro p _
    exact hfun p
  refine ⟨?_, ?_, ?_, ?_⟩
  · simp only [validateParsedValues]
    exact hfilter
  · simp only [validateParsedValues, hfilter]
    exact decide_eq_true_iff
  · simp only [validateParsedValues, hfilter]
  · rfl

/-! ### Claim C7 — the upload route's declared-lab-type gate -/

/-- C7: the upload endpoint proceeds past the lab-type gate exactly for
declared values whose lowercased, trimmed form is "cbc", "urinalysis" or
"lipid"; every other value yields `badRequest` (HTTP 400), a terminal
outcome produced before either classifier is reached. -/
theorem C7_upload_labtype_gate (s : List Char) :
    (∃ t, uploadLabTypeDecision s = .proceed t) ↔
      (jsTrim (lowerStr s) = "cbc".toList ∨ jsTrim (lowerStr s) = "urinalysis".toList ∨
        jsTrim (lowerStr s) = "lipid".toList) := by
  simp only [uploadLabTypeDecision]
  by_cases h1 : jsTrim (lowerStr s) = "cbc".toList
  · rw [if_pos h1]
    simp [h1]
  · rw [if_neg h1]
    by_cases h2 : jsTrim (lowerStr s) = "urinalysis".toList
    · rw [if_pos h2]
      simp [h1, h2]
    · rw [if_neg h2]
      by_cases h3 : jsTrim (lowerStr s) = "lipid".toList
      · rw [if_pos h3]
        simp [h1, h2, h3]
      · rw [if_neg h3]
        constructor
        · rintro ⟨t, ht⟩
          exact UploadDecision.noConfusion ht
        · rintro (h | h | h)
          · exact absurd h h1
          · exact absurd h h2
          · exact absurd h h3

/-! ### Claim C8 — accepted text always lands in the "high" tier -/

/-- C8: whenever the text classifier accepts (`isValid = true`), the three
gating conditions each contribute their weight (0.2 + 0.3 + 0.3), so the
confidence is at least 0.8 and the route's tier bucketing would label it
"high". -/
theorem C8_valid_implies_high_tier (text : List Char) (labType : LabType)
    (patternsMatch : Bool)
    (hvalid : (validateLabType text labType patternsMatch).isValid = true) :
    8/10 ≤ (validateLabType text labType patternsMatch).confidence ∧
      confidenceTier ((validateLabType text labType patternsMatch).confidence) =
        ConfidenceTier.high := by
  have hconf : (8:ℚ)/10 ≤ (validateLabType text labType patternsMatch).confidence := by
    simp only [validateLabType] at hvalid ⊢
    rw [Bool.and_eq_true, Bool.and_eq_true] at hvalid
    obtain ⟨⟨hm, hk⟩, he⟩ := hvalid
    simp only [he] at hk
    simp only [hm, hk, he, if_true]
    cases patternsMatch <;> split_ifs <;> norm_num [le_min_iff]
  refine ⟨hconf, ?_⟩
  unfold confidenceTier
  rw [if_pos hconf]

/-- C8, witness: the sample CBC text is accepted, and its confidence is at
least 0.8 and tiered "high". -/
theorem C8_witness :
    (validateLabType cbcSampleText .cbc true).isValid = true ∧
    8/10 ≤ (validateLabType cbcSampleText .cbc true).confidence ∧
    confidenceTier ((validateLabType cbcSampleText .cbc true).confidence) =
      ConfidenceTier.high :=
  ⟨by decide,
    (C8_valid_implies_high_tier cbcSampleText .cbc true (by decide)).1,
    (C8_valid_implies_high_tier cbcSampleText .cbc true (by decide)).2⟩

/-! ### Claim C10 — one key can satisfy the whole lipid threshold -/

/-- C10: the threshold of `validateParsedValues` counts matched
expected-parameter synonym variants, not distinct keys: the single key
"ldl hdl cholesterol" matches at least 3 lipid phrases (in fact
"cholesterol", "hdl", "hdl cholesterol", "ldl", "ldl cholesterol"), so a
one-key map is accepted for the lipid type. -/
theorem C10_single_key_lipid :
    (validateParsedValues ["ldl hdl cholesterol".toList] .lipid).isValid = true ∧
    3 ≤ (validateParsedValues ["ldl hdl cholesterol".toList] .lipid).matchedParameters.length := by
  constructor
  · decide
  · decide

end MediScan
